import Mathlib

/-!
Verification development for the agent-gov repository.

The repository ships a TypeScript client (`typescript/src/client.ts`, plus an
sdk-core based variant) and the type declarations (`typescript/src/types.ts`)
of a governance engine.  The engine itself (policy evaluation, audit store,
framework scorer, cost calculator) is not part of the shipped sources, so those
parts are modelled from the specification; the client-side definitions are
shallow embeddings of the TypeScript sources.
-/

namespace AgentGov

-- ===========================================================================
-- Severity and policy data model (types.ts, spec section 3)
-- ===========================================================================

/-- Severity levels for policy rule violations, mirroring the closed string
enumeration `Severity` in `types.ts`. -/
inductive Severity
  | low
  | medium
  | high
  | critical
deriving DecidableEq

/-- Numeric rank realising the load-bearing ordering low < medium < high < critical. -/
def Severity.rank : Severity → Nat
  | .low => 0
  | .medium => 1
  | .high => 2
  | .critical => 3

/-- Maximum of two severities under the rank ordering. -/
def maxSev (a b : Severity) : Severity :=
  if a.rank < b.rank then b else a

/-- Actions are modelled as string key/value maps (the evaluable content of the
action object submitted for evaluation). -/
abbrev Action := List (String × String)

/-- Rule parameters, the untyped key/value map forwarded to an evaluator. -/
abbrev Params := List (String × String)

/-- One rule inside a policy, mirroring `PolicyRule` in `types.ts`:
name, catalogue type key, enabled flag, default severity, params. -/
structure RuleConfig where
  name : String
  type : String
  enabled : Bool
  severity : Severity
  params : Params

/-- Top-level policy configuration, mirroring `GovernanceConfig` in `types.ts`. -/
structure PolicyConfig where
  name : String
  version : String
  description : String
  rules : List RuleConfig

/-- Result of a single rule evaluation, mirroring `RuleVerdict` in `types.ts`. -/
structure RuleVerdict where
  rule_name : String
  passed : Bool
  severity : Severity
  message : String
deriving DecidableEq

/-- Evaluation report for one (policy, action) pair, mirroring
`ComplianceReport` in `types.ts`; `highest_severity = none` is the
"none" sentinel. -/
structure ComplianceReport where
  policy_name : String
  verdicts : List RuleVerdict
  passed : Bool
  violation_count : Nat
  highest_severity : Option Severity

-- ===========================================================================
-- Policy evaluation engine (modelled from the spec)
-- ===========================================================================

/-- Modelled from the spec: an Evaluator of the Rule Catalogue (section 4.1), a
pure function from action and params to pass/fail plus a message; an
evaluator-level fault is the `Except.error` case.  The engine sources are not
in the repository. -/
abbrev Evaluator := Action → Params → Except String (Bool × String)

/-- Modelled from the spec: the Rule Catalogue lookup
`lookup(type) -> Evaluator | NotFound` (section 4.1). -/
abbrev RuleCatalogue := String → Option Evaluator

/-- Modelled from the spec: evaluation of one enabled rule (section 4.3 steps
2 and 3): an unregistered type yields a failed verdict with severity critical
naming the missing type; an evaluator fault becomes a failed verdict at the
rule's configured severity; otherwise the evaluator's outcome is recorded. -/
def evalRule (cat : RuleCatalogue) (a : Action) (r : RuleConfig) : RuleVerdict :=
  match cat r.type with
  | none =>
      { rule_name := r.name
        passed := false
        severity := .critical
        message := "unknown rule type: " ++ r.type }
  | some ev =>
      match ev a r.params with
      | .ok pm =>
          { rule_name := r.name
            passed := pm.1
            severity := r.severity
            message := pm.2 }
      | .error msg =>
          { rule_name := r.name
            passed := false
            severity := r.severity
            message := msg }

/-- Maximum severity of a list of severities, `none` on the empty list. -/
def maxSeverityOf : List Severity → Option Severity
  | [] => none
  | s :: rest =>
      match maxSeverityOf rest with
      | none => some s
      | some m => some (maxSev s m)

/-- Severities of the failed verdicts of a verdict list, in order. -/
def failedSeverities (vs : List RuleVerdict) : List Severity :=
  (vs.filter (fun v => !v.passed)).map RuleVerdict.severity

/-- Modelled from the spec: `evaluate(policy, action) -> ComplianceReport`
(section 4.3): disabled rules are skipped, each enabled rule produces one
verdict in rule order, `passed` is the conjunction of all verdicts (vacuously
true when there are none), `violation_count` counts failed verdicts and
`highest_severity` is the maximum severity among failed verdicts with the
"none" sentinel when there are no failures.  The engine sources are not in
the repository. -/
def evaluate (cat : RuleCatalogue) (p : PolicyConfig) (a : Action) : ComplianceReport :=
  let verdicts := (p.rules.filter (fun r => r.enabled)).map (evalRule cat a)
  { policy_name := p.name
    verdicts := verdicts
    passed := verdicts.all (fun v => v.passed)
    violation_count := (verdicts.filter (fun v => !v.passed)).length
    highest_severity := maxSeverityOf (failedSeverities verdicts) }

-- ===========================================================================
-- Audit store (modelled from the spec, section 4.4)
-- ===========================================================================

/-- One immutable audit record, mirroring `AuditEntry` in `types.ts`
(fields not used by queries are carried as strings). -/
structure AuditRecord where
  agent_id : String
  action_type : String
  verdict : String
  policy_name : String
  timestamp : String
deriving DecidableEq

/-- Optional exact-match filters of an audit query (section 4.4). -/
structure AuditFilters where
  agent_id : Option String
  policy_name : Option String
  verdict : Option String

/-- Modelled from the spec: the conjunction of the supplied exact-match
filters; an absent filter matches everything. -/
def matchesFilters (f : AuditFilters) (e : AuditRecord) : Bool :=
  (match f.agent_id with
   | some v => e.agent_id == v
   | none => true) &&
  (match f.policy_name with
   | some v => e.policy_name == v
   | none => true) &&
  (match f.verdict with
   | some v => e.verdict == v
   | none => true)

/-- Modelled from the spec: `query(filters, limit)` over an append-only store
held as the list of entries in append order (section 4.4): matching entries
are returned most-recent-first, capped at `limit` when one is supplied
(`none` is the unlimited result of section 8).  The audit store sources are
not in the repository. -/
def auditQuery (store : List AuditRecord) (f : AuditFilters)
    (limit : Option Nat) : List AuditRecord :=
  let matched := store.reverse.filter (matchesFilters f)
  match limit with
  | none => matched
  | some n => matched.take n

-- ===========================================================================
-- Compliance framework catalogue (modelled from the spec, section 4.5)
-- ===========================================================================

/-- Evidence status for one requirement: pass, fail or skip. -/
inductive EvidenceStatus
  | pass
  | fail
  | skip
deriving DecidableEq

/-- Requirement-level report of a framework check. -/
structure FrameworkReport where
  results : List (String × EvidenceStatus)
  passed_count : Nat
  failed_count : Nat
  skipped_count : Nat
  total_requirements : Nat
  score_percent : ℚ

/-- Modelled from the spec: `run_check(framework, evidence_map)` (section 4.5)
over a framework catalogue given as its list of requirement ids: requirements
absent from the evidence map are treated as skip, and
`score_percent = passed / (total - skipped) * 100` with the convention 0 when
the denominator is zero.  The framework sources are not in the repository. -/
def run_check (catalogue : List String)
    (evidence : List (String × EvidenceStatus)) : FrameworkReport :=
  let results := catalogue.map (fun reqId => (reqId, (evidence.lookup reqId).getD .skip))
  let passed := results.countP (fun r => r.2 == EvidenceStatus.pass)
  let failed := results.countP (fun r => r.2 == EvidenceStatus.fail)
  let skipped := results.countP (fun r => r.2 == EvidenceStatus.skip)
  let total := catalogue.length
  { results := results
    passed_count := passed
    failed_count := failed
    skipped_count := skipped
    total_requirements := total
    score_percent :=
      if total - skipped = 0 then 0
      else (passed : ℚ) / ((total - skipped : Nat) : ℚ) * 100 }

-- ===========================================================================
-- Compliance cost calculator (modelled from the spec, section 4.6)
-- ===========================================================================

/-- Automation level of a requirement, mirroring `AutomationLevel` in `types.ts`. -/
inductive AutomationLevel
  | fully_automated
  | semi_automated
  | manual
deriving DecidableEq

/-- One catalogue entry, mirroring `FrameworkRequirement` of the spec data
model (section 3). -/
structure FrameworkRequirement where
  requirement_id : String
  description : String
  baseline_manual_hours : ℚ
  default_automation_level : AutomationLevel

/-- Per-requirement cost line, mirroring `RequirementCostDetail` in `types.ts`. -/
structure RequirementCostDetail where
  requirement_id : String
  automation_level : AutomationLevel
  hours_manual : ℚ
  hours_automated : ℚ
  cost_manual : ℚ
  cost_automated : ℚ
  savings : ℚ

/-- Cost report, mirroring `ComplianceCostReport` in `types.ts`. -/
structure ComplianceCostReport where
  total_requirements : Nat
  automated_count : Nat
  semi_automated_count : Nat
  manual_count : Nat
  total_hours_manual : ℚ
  total_hours_automated : ℚ
  total_cost_manual : ℚ
  total_cost_with_automation : ℚ
  savings_percentage : ℚ
  hourly_rate : ℚ
  requirement_details : List RequirementCostDetail

/-- Modelled from the spec: the effective automation level of a requirement,
the override when present, else the catalogue default (section 4.6). -/
def effectiveLevel (overrides : List (String × AutomationLevel))
    (req : FrameworkRequirement) : AutomationLevel :=
  (overrides.lookup req.requirement_id).getD req.default_automation_level

/-- Modelled from the spec: one requirement's cost line (section 4.6):
`hours_automated = hours_manual * multiplier(level)`, `cost_x = hours_x * rate`,
`savings = cost_manual - cost_automated`. -/
def requirementDetail (mult : AutomationLevel → ℚ) (rate : ℚ)
    (overrides : List (String × AutomationLevel))
    (req : FrameworkRequirement) : RequirementCostDetail :=
  let lvl := effectiveLevel overrides req
  let hm := req.baseline_manual_hours
  let ha := hm * mult lvl
  { requirement_id := req.requirement_id
    automation_level := lvl
    hours_manual := hm
    hours_automated := ha
    cost_manual := hm * rate
    cost_automated := ha * rate
    savings := hm * rate - ha * rate }

/-- Modelled from the spec: `generate(framework, automation_overrides,
hourly_rate)` (section 4.6) over a framework catalogue given as its
requirement list: totals are sums over the per-requirement lines, counts
partition the requirements by effective automation level, and
`savings_percentage` is 0 when `total_cost_manual` is 0, else
`100 * (total_cost_manual - total_cost_with_automation) / total_cost_manual`.
The calculator sources are not in the repository. -/
def generateCostReport (mult : AutomationLevel → ℚ)
    (catalogue : List FrameworkRequirement)
    (overrides : List (String × AutomationLevel))
    (rate : ℚ) : ComplianceCostReport :=
  let details := catalogue.map (requirementDetail mult rate overrides)
  let tcm := (details.map RequirementCostDetail.cost_manual).sum
  let tca := (details.map RequirementCostDetail.cost_automated).sum
  { total_requirements := catalogue.length
    automated_count :=
      details.countP (fun d => d.automation_level == AutomationLevel.fully_automated)
    semi_automated_count :=
      details.countP (fun d => d.automation_level == AutomationLevel.semi_automated)
    manual_count :=
      details.countP (fun d => d.automation_level == AutomationLevel.manual)
    total_hours_manual := (details.map RequirementCostDetail.hours_manual).sum
    total_hours_automated := (details.map RequirementCostDetail.hours_automated).sum
    total_cost_manual := tcm
    total_cost_with_automation := tca
    savings_percentage := if tcm = 0 then 0 else 100 * (tcm - tca) / tcm
    hourly_rate := rate
    requirement_details := details }

-- ===========================================================================
-- HTTP client embeddings (typescript/src/client.ts and the sdk-core variant)
-- ===========================================================================

/-- Standard error payload of the agent-gov API, mirroring `ApiError` in
`types.ts`. -/
structure ApiError where
  error : String
  detail : String
deriving DecidableEq

/-- Result type of all client operations, mirroring `ApiResult` in `types.ts`:
`success data` is the `ok: true` arm and `failure error status` the
`ok: false` arm.  Response payloads are carried as strings. -/
inductive ApiResult
  | success (data : String)
  | failure (error : ApiError) (status : Nat)
deriving DecidableEq

/-- Outcome of a promise at its boundary: it either resolves with a value or
rejects with an error message. -/
inductive PromiseOutcome (α : Type)
  | resolved (value : α)
  | rejected (message : String)
deriving DecidableEq

/-- Body of an HTTP response after JSON parsing: the optional `error` and
`detail` fields read on the error path, and the payload delivered as the data
on the success path. -/
structure JsonBody where
  errorField : Option String
  detailField : Option String
  payload : String
deriving DecidableEq

deriving instance DecidableEq for Except

/-- Behaviour of one HTTP round trip as seen by either client implementation:
an HTTP response (with its `ok` flag, status code, JSON-parse outcome of the
body, the transport-level error message and the raw body text), a
timeout/abort, a network failure, or some other thrown value.  Thrown values
are carried as their resulting message strings. -/
inductive TransportBehaviour
  | httpResponse (ok : Bool) (status : Nat) (body : Except String JsonBody)
      (httpMessage : String) (rawBody : String)
  | timeoutAbort (message : String)
  | networkFailure (message : String)
  | otherThrown (message : String)
deriving DecidableEq

/-- The awaited steps of `fetchJson` in `client.ts` before its catch handler:
`await fetch(...)` throws on timeout/abort, network failure or any other
fault, and `await response.json()` throws when the body does not parse; a
successful run yields the response `ok` flag, status and parsed body. -/
def fetchAwait : TransportBehaviour → Except String (Bool × Nat × JsonBody)
  | .httpResponse ok status body _ _ => body.map (fun b => (ok, status, b))
  | .timeoutAbort m => .error m
  | .networkFailure m => .error m
  | .otherThrown m => .error m

/-- Shallow embedding of `fetchJson` in `typescript/src/client.ts`: on a
non-ok response the server's `{error, detail}` body is kept with defaults
"Unknown error" and "" and the HTTP status; on a successful response the body
is the data; any thrown value is caught and reported as
`{error: "Network error", detail: message}` with status 0.  The function
always resolves. -/
def fetchJson (b : TransportBehaviour) : PromiseOutcome ApiResult :=
  match fetchAwait b with
  | .ok (ok, status, body) =>
      if ok then
        .resolved (.success body.payload)
      else
        .resolved (.failure
          { error := body.errorField.getD "Unknown error"
            detail := body.detailField.getD "" }
          status)
  | .error m =>
      .resolved (.failure { error := "Network error", detail := m } 0)

/-- Typed errors thrown by the `@aumos/sdk-core` HTTP client, as handled by
`callApi` in the sdk-core client variant. -/
inductive SdkError
  | httpError (message : String) (body : String) (statusCode : Nat)
  | timeoutError (message : String)
  | networkError (message : String)
  | aumosError (code : String) (message : String) (statusCode : Option Nat)
  | otherError (message : String)

/-- Shallow embedding of the try/catch body of `callApi` in the sdk-core
client variant: the handler applied to the awaited operation's outcome. -/
def callApiHandle (outcome : Except SdkError String) : PromiseOutcome ApiResult :=
  match outcome with
  | .ok data => .resolved (.success data)
  | .error (.httpError msg body status) =>
      .resolved (.failure { error := msg, detail := body } status)
  | .error (.timeoutError m) =>
      .resolved (.failure { error := "Request timed out", detail := m } 0)
  | .error (.networkError m) =>
      .resolved (.failure { error := "Network error", detail := m } 0)
  | .error (.aumosError code m status) =>
      .resolved (.failure { error := code, detail := m } (status.getD 0))
  | .error (.otherError m) =>
      .resolved (.failure { error := "Unexpected error", detail := m } 0)

/-- Behaviour of the sdk-core transport on the common round-trip behaviours:
a non-ok response surfaces as `HttpError` carrying the message, raw body and
status code; a timeout as `TimeoutError`; a network failure as
`NetworkError`; any other thrown value as a generic error.  A response body
that fails to parse is modelled as a generic thrown error (it carries no HTTP
status code). -/
def sdkAwait : TransportBehaviour → Except SdkError String
  | .httpResponse true _ (.ok b) _ _ => .ok b.payload
  | .httpResponse true _ (.error m) _ _ => .error (.otherError m)
  | .httpResponse false status (.ok _) msg raw => .error (.httpError msg raw status)
  | .httpResponse false status (.error _) msg raw => .error (.httpError msg raw status)
  | .timeoutAbort m => .error (.timeoutError m)
  | .networkFailure m => .error (.networkError m)
  | .otherThrown m => .error (.otherError m)

/-- The sdk-core based client call: `callApi` applied to the awaited
operation. -/
def callApi (b : TransportBehaviour) : PromiseOutcome ApiResult :=
  callApiHandle (sdkAwait b)

/-- True when the round trip carries no JSON-parse failure of a response
body. -/
def bodyParses : TransportBehaviour → Bool
  | .httpResponse _ _ (.ok _) _ _ => true
  | .httpResponse _ _ (.error _) _ _ => false
  | _ => true

/-- Agreement of two client results on the envelope: both resolved, with the
same ok shape, the same data on success and the same status on failure (the
error strings are not compared). -/
def envelopeAgrees : PromiseOutcome ApiResult → PromiseOutcome ApiResult → Bool
  | .resolved (.success d1), .resolved (.success d2) => d1 == d2
  | .resolved (.failure _ s1), .resolved (.failure _ s2) => s1 == s2
  | _, _ => false

-- ===========================================================================
-- getAuditLog request building (both client variants)
-- ===========================================================================

/-- Query parameters of the getAuditLog endpoint, mirroring `AuditLogQuery`
in `types.ts`. -/
structure AuditLogQuery where
  agentId : Option String
  policyName : Option String
  verdict : Option String
  limit : Option Nat

/-- Shallow embedding of the parameter building of `getAuditLog` in
`typescript/src/client.ts` (and, identically, the sdk-core variant): one
wire parameter per defined field, in insertion order `agent_id`,
`policy_name`, `verdict`, `limit` (stringified); undefined fields contribute
none. -/
def auditLogParams (q : AuditLogQuery) : List (String × String) :=
  (match q.agentId with
   | some v => [("agent_id", v)]
   | none => []) ++
  (match q.policyName with
   | some v => [("policy_name", v)]
   | none => []) ++
  (match q.verdict with
   | some v => [("verdict", v)]
   | none => []) ++
  (match q.limit with
   | some n => [("limit", toString n)]
   | none => [])

/-- Serialisation of a parameter list as a query string, `k=v` pairs joined
with `&`. -/
def encodeParams (ps : List (String × String)) : String :=
  String.intercalate "&" (ps.map (fun p => p.1 ++ "=" ++ p.2))

/-- Shallow embedding of the URL building of `getAuditLog` in
`typescript/src/client.ts`: the query string is appended after `?` only when
it is non-empty. -/
def auditLogUrl (baseUrl : String) (q : AuditLogQuery) : String :=
  let qs := encodeParams (auditLogParams q)
  if qs = "" then baseUrl ++ "/audit/log" else baseUrl ++ "/audit/log?" ++ qs

-- ===========================================================================
-- Concrete inputs used by witnesses and counterexamples
-- ===========================================================================

/-- A catalogue registering a single rule type whose evaluator always fails. -/
def catW : RuleCatalogue := fun t =>
  if t = "cost_limit" then some (fun _ _ => .ok (false, "cost exceeds limit")) else none

/-- A catalogue registering a single rule type whose evaluator always passes. -/
def catP : RuleCatalogue := fun t =>
  if t = "role_check" then some (fun _ _ => .ok (true, "")) else none

/-- A one-rule policy using the registered failing rule type. -/
def polW : PolicyConfig :=
  { name := "p"
    version := "1.0"
    description := ""
    rules := [{ name := "r1", type := "cost_limit", enabled := true,
                severity := .high, params := [] }] }

/-- An enabled rule of a registered type. -/
def ruleOK : RuleConfig :=
  { name := "ok-rule", type := "role_check", enabled := true,
    severity := .low, params := [] }

/-- A disabled rule of an unregistered type. -/
def ruleD : RuleConfig :=
  { name := "ghost", type := "mystery", enabled := false, severity := .low, params := [] }

/-- A policy containing only a disabled rule of an unregistered type. -/
def polD : PolicyConfig :=
  { name := "pd", version := "1.0", description := "", rules := [ruleD] }

/-- A policy with one enabled registered rule and one enabled unregistered rule. -/
def polU : PolicyConfig :=
  { name := "pu"
    version := "1.0"
    description := ""
    rules := [{ name := "ok-rule", type := "role_check", enabled := true,
                severity := .low, params := [] },
              { name := "bad-rule", type := "mystery", enabled := true,
                severity := .low, params := [] }] }

/-- A concrete audit record used by witnesses. -/
def entryA : AuditRecord :=
  { agent_id := "a1", action_type := "search", verdict := "pass",
    policy_name := "p", timestamp := "t1" }

/-- A second concrete audit record used by witnesses. -/
def entryB : AuditRecord :=
  { agent_id := "a1", action_type := "write", verdict := "fail",
    policy_name := "p", timestamp := "t2" }

/-- The empty audit filter set, admitting every entry. -/
def noFilters : AuditFilters :=
  { agent_id := none, policy_name := none, verdict := none }

/-- A concrete automation multiplier satisfying the multiplier invariant. -/
def multW : AutomationLevel → ℚ
  | .fully_automated => 1/4
  | .semi_automated => 1/2
  | .manual => 1

/-- A two-requirement catalogue used by witnesses. -/
def catalogueW : List FrameworkRequirement :=
  [{ requirement_id := "A6", description := "risk classification",
     baseline_manual_hours := 10, default_automation_level := .manual },
   { requirement_id := "A13", description := "transparency",
     baseline_manual_hours := 5, default_automation_level := .fully_automated }]

-- ===========================================================================
-- Helper lemmas
-- ===========================================================================

theorem maxSev_eq_or (a b : Severity) : maxSev a b = a ∨ maxSev a b = b := by
  unfold maxSev; split
  · exact Or.inr rfl
  · exact Or.inl rfl

theorem rank_le_maxSev_left (a b : Severity) : a.rank ≤ (maxSev a b).rank := by
  unfold maxSev; split <;> omega

theorem rank_le_maxSev_right (a b : Severity) : b.rank ≤ (maxSev a b).rank := by
  unfold maxSev; split <;> omega

theorem maxSeverityOf_eq_none_iff (l : List Severity) :
    maxSeverityOf l = none ↔ l = [] := by
  cases l with
  | nil => simp [maxSeverityOf]
  | cons s rest =>
    cases hr : maxSeverityOf rest <;> simp [maxSeverityOf, hr]

theorem maxSeverityOf_spec (l : List Severity) (s : Severity)
    (h : maxSeverityOf l = some s) :
    s ∈ l ∧ ∀ t ∈ l, t.rank ≤ s.rank := by
  induction l generalizing s with
  | nil => simp [maxSeverityOf] at h
  | cons a rest ih =>
    rw [maxSeverityOf] at h
    cases hr : maxSeverityOf rest with
    | none =>
      rw [hr] at h
      simp only [Option.some.injEq] at h
      subst h
      have hnil : rest = [] := (maxSeverityOf_eq_none_iff rest).mp hr
      subst hnil
      exact ⟨List.mem_singleton.mpr rfl, by intro t ht; simp at ht; subst ht; exact le_refl _⟩
    | some m =>
      rw [hr] at h
      simp only [Option.some.injEq] at h
      subst h
      obtain ⟨hm, hub⟩ := ih m hr
      constructor
      · rcases maxSev_eq_or a m with h1 | h1 <;> rw [h1]
        · exact List.mem_cons_self _ _
        · exact List.mem_cons_of_mem _ hm
      · intro t ht
        rcases List.mem_cons.mp ht with rfl | ht
        · exact rank_le_maxSev_left _ _
        · exact le_trans (hub t ht) (rank_le_maxSev_right a m)

-- ===========================================================================
-- C1: report invariants of evaluate
-- ===========================================================================

/-- C1: for every policy and action, the ComplianceReport returned by
evaluate satisfies: `passed = true` iff every verdict passed (vacuously true
on the empty verdict list); `violation_count` is the number of failed
verdicts; and `highest_severity` is the maximum severity among failed
verdicts under low < medium < high < critical, being the `none` sentinel iff
`violation_count = 0`. -/
theorem evaluate_report_invariants (cat : RuleCatalogue) (p : PolicyConfig)
    (a : Action) (R : ComplianceReport) (hR : R = evaluate cat p a) :
    (R.passed = true ↔ ∀ v ∈ R.verdicts, v.passed = true) ∧
    R.violation_count = (R.verdicts.filter (fun v => v.passed = false)).length ∧
    (R.highest_severity = none ↔ R.violation_count = 0) ∧
    (∀ s, R.highest_severity = some s →
      s ∈ failedSeverities R.verdicts ∧
      ∀ t ∈ failedSeverities R.verdicts, t.rank ≤ s.rank) := by
  subst hR
  refine ⟨?_, ?_, ?_, ?_⟩
  · simp [evaluate, List.all_eq_true]
  · simp only [evaluate]
    congr 1
    apply List.filter_congr
    intro v _
    cases hv : v.passed <;> simp [hv]
  · simp only [evaluate]
    rw [maxSeverityOf_eq_none_iff]
    unfold failedSeverities
    simp [List.map_eq_nil_iff, List.length_eq_zero]
  · intro s hs
    exact maxSeverityOf_spec _ s hs

/-- Witness for C1 at a concrete catalogue, policy and action. -/
theorem evaluate_report_invariants_witness :
    ((evaluate catW polW []).passed = true ↔
      ∀ v ∈ (evaluate catW polW []).verdicts, v.passed = true) ∧
    (evaluate catW polW []).violation_count =
      ((evaluate catW polW []).verdicts.filter (fun v => v.passed = false)).length ∧
    ((evaluate catW polW []).highest_severity = none ↔
      (evaluate catW polW []).violation_count = 0) ∧
    (∀ s, (evaluate catW polW []).highest_severity = some s →
      s ∈ failedSeverities (evaluate catW polW []).verdicts ∧
      ∀ t ∈ failedSeverities (evaluate catW polW []).verdicts, t.rank ≤ s.rank) :=
  evaluate_report_invariants catW polW [] (evaluate catW polW []) rfl

-- ===========================================================================
-- C2: unregistered rule types fail closed
-- ===========================================================================

theorem evalRule_rule_name (cat : RuleCatalogue) (a : Action) (r : RuleConfig) :
    (evalRule cat a r).rule_name = r.name := by
  unfold evalRule
  split
  · rfl
  · split <;> rfl

/-- C2 fails as stated: a policy containing a rule of unregistered type whose
`enabled` flag is false yields a report with no verdicts and overall
`passed = true`, because disabled rules are skipped before the catalogue
lookup. -/
theorem unregistered_disabled_rule_counterexample :
    (evaluate catW polD []).passed = true ∧ (evaluate catW polD []).verdicts = [] :=
  ⟨rfl, rfl⟩

/-- C2 (amended): for every policy, action and ENABLED rule whose type string
is not registered in the catalogue, evaluate produces for that rule a failed
verdict with severity critical, and the report's overall `passed` is false
regardless of the outcomes of all other rules. -/
theorem unregistered_rule_fails_closed (cat : RuleCatalogue) (p : PolicyConfig)
    (a : Action) (r : RuleConfig) (hr : r ∈ p.rules) (he : r.enabled = true)
    (hc : cat r.type = none) :
    (∃ v ∈ (evaluate cat p a).verdicts,
      v.rule_name = r.name ∧ v.passed = false ∧ v.severity = Severity.critical) ∧
    (evaluate cat p a).passed = false := by
  have hmemf : r ∈ p.rules.filter (fun q => q.enabled) :=
    List.mem_filter.mpr ⟨hr, he⟩
  have hv : evalRule cat a r ∈ (evaluate cat p a).verdicts :=
    List.mem_map_of_mem _ hmemf
  have hev : evalRule cat a r =
      { rule_name := r.name, passed := false, severity := .critical,
        message := "unknown rule type: " ++ r.type } := by
    simp [evalRule, hc]
  refine ⟨⟨evalRule cat a r, hv, by rw [hev], by rw [hev], by rw [hev]⟩, ?_⟩
  have hall : ((evaluate cat p a).verdicts.all (fun v => v.passed)) = false := by
    apply Bool.eq_false_iff.mpr
    intro hAll
    rw [List.all_eq_true] at hAll
    have h1 := hAll _ hv
    rw [hev] at h1
    simp at h1
  exact hall

/-- Witness for the amended C2 at a concrete policy with one passing rule and
one enabled rule of unregistered type. -/
theorem unregistered_rule_fails_closed_witness :
    (∃ v ∈ (evaluate catP polU []).verdicts,
      v.rule_name = "bad-rule" ∧ v.passed = false ∧ v.severity = Severity.critical) ∧
    (evaluate catP polU []).passed = false :=
  unregistered_rule_fails_closed catP polU []
    { name := "bad-rule", type := "mystery", enabled := true,
      severity := .low, params := [] }
    (List.mem_cons_of_mem _ (List.mem_cons_self _ _)) rfl rfl

-- ===========================================================================
-- C8: disabled rules produce no verdict
-- ===========================================================================

/-- C8: a disabled rule contributes no verdict: evaluating a policy whose
rule list is `pre ++ r :: post` with `r.enabled = false` yields exactly the
verdicts of the policy with rules `pre ++ post`; enabling `r` makes the
verdict list longer by exactly one entry; and (when the rule names of the
other rules avoid `r.name`, per the uniqueness requirement) no verdict of the
report carries the disabled rule's name. -/
theorem disabled_rule_produces_no_verdict (cat : RuleCatalogue) (a : Action)
    (nm ver desc : String) (pre post : List RuleConfig) (r : RuleConfig)
    (hd : r.enabled = false) :
    (evaluate cat ⟨nm, ver, desc, pre ++ r :: post⟩ a).verdicts =
      (evaluate cat ⟨nm, ver, desc, pre ++ post⟩ a).verdicts ∧
    (evaluate cat ⟨nm, ver, desc, pre ++ { r with enabled := true } :: post⟩ a).verdicts.length =
      (evaluate cat ⟨nm, ver, desc, pre ++ r :: post⟩ a).verdicts.length + 1 ∧
    (r.name ∉ (pre ++ post).map RuleConfig.name →
      ∀ v ∈ (evaluate cat ⟨nm, ver, desc, pre ++ r :: post⟩ a).verdicts,
        v.rule_name ≠ r.name) := by
  refine ⟨?_, ?_, ?_⟩
  · simp [evaluate, List.filter_append, List.filter_cons, hd]
  · simp [evaluate, List.filter_append, List.filter_cons, hd]
    omega
  · intro hfresh v hv hEq
    have hv' : v ∈ ((pre ++ post).filter (fun q => q.enabled)).map (evalRule cat a) := by
      simpa [evaluate, List.filter_append, List.filter_cons, hd] using hv
    obtain ⟨r', hr', rfl⟩ := List.mem_map.mp hv'
    have hr'' : r' ∈ pre ++ post := (List.mem_filter.mp hr').1
    rw [evalRule_rule_name] at hEq
    exact hfresh (hEq ▸ List.mem_map_of_mem RuleConfig.name hr'')

/-- Witness for C8 at a concrete policy with one enabled rule and one
disabled rule. -/
theorem disabled_rule_produces_no_verdict_witness :
    (evaluate catP ⟨"pw", "1", "", [] ++ ruleD :: [ruleOK]⟩ []).verdicts =
      (evaluate catP ⟨"pw", "1", "", [] ++ [ruleOK]⟩ []).verdicts ∧
    (evaluate catP ⟨"pw", "1", "",
        [] ++ ({ ruleD with enabled := true } : RuleConfig) :: [ruleOK]⟩ []).verdicts.length =
      (evaluate catP ⟨"pw", "1", "", [] ++ ruleD :: [ruleOK]⟩ []).verdicts.length + 1 ∧
    (ruleD.name ∉ ([] ++ [ruleOK]).map RuleConfig.name →
      ∀ v ∈ (evaluate catP ⟨"pw", "1", "", [] ++ ruleD :: [ruleOK]⟩ []).verdicts,
        v.rule_name ≠ ruleD.name) :=
  disabled_rule_produces_no_verdict catP [] "pw" "1" "" [] [ruleOK] ruleD rfl

-- ===========================================================================
-- C3: audit query ordering and limit
-- ===========================================================================

/-- C3: for entries `a` appended before `b` and any filter set admitting
both, the unlimited query yields `b` strictly before `a` (most-recent-first,
exhibited by the exact shape of the result); and for every store and limit
`N`, the limited query returns at most `N` entries which are exactly the
`N`-prefix of the unlimited result for the same filters. -/
theorem audit_query_order_and_limit (f : AuditFilters)
    (s1 s2 s3 : List AuditRecord) (a b : AuditRecord)
    (ha : matchesFilters f a = true) (hb : matchesFilters f b = true) :
    auditQuery (s1 ++ a :: (s2 ++ b :: s3)) f none =
      s3.reverse.filter (matchesFilters f) ++
        b :: (s2.reverse.filter (matchesFilters f) ++
          a :: s1.reverse.filter (matchesFilters f)) ∧
    ∀ (store : List AuditRecord) (n : Nat),
      (auditQuery store f (some n)).length ≤ n ∧
      auditQuery store f (some n) = (auditQuery store f none).take n := by
  constructor
  · simp [auditQuery, List.filter_append, List.filter_cons, ha, hb]
  · intro store n
    exact ⟨List.length_take_le _ _, rfl⟩

/-- Witness for C3 at a concrete two-entry store and the empty filter set. -/
theorem audit_query_order_and_limit_witness :
    auditQuery ([] ++ entryA :: ([] ++ entryB :: [])) noFilters none =
      (([] : List AuditRecord).reverse.filter (matchesFilters noFilters)) ++
        entryB :: ((([] : List AuditRecord).reverse.filter (matchesFilters noFilters)) ++
          entryA :: (([] : List AuditRecord).reverse.filter (matchesFilters noFilters))) ∧
    ∀ (store : List AuditRecord) (n : Nat),
      (auditQuery store noFilters (some n)).length ≤ n ∧
      auditQuery store noFilters (some n) = (auditQuery store noFilters none).take n :=
  audit_query_order_and_limit noFilters [] [] [] entryA entryB rfl rfl

-- ===========================================================================
-- C7: run_check treats absent evidence as skip; score formula
-- ===========================================================================

/-- C7: for every framework catalogue and evidence map, run_check treats
every requirement absent from the evidence map as status skip (and only
skip, never fail), and computes
`score_percent = passed_count / (total_requirements - skipped_count) * 100`,
returning 0 whenever the denominator is zero. -/
theorem run_check_skip_and_score (catalogue : List String)
    (evidence : List (String × EvidenceStatus)) :
    (∀ rid ∈ catalogue, evidence.lookup rid = none →
      (rid, EvidenceStatus.skip) ∈ (run_check catalogue evidence).results ∧
      ∀ st, (rid, st) ∈ (run_check catalogue evidence).results →
        st = EvidenceStatus.skip) ∧
    ((run_check catalogue evidence).total_requirements -
        (run_check catalogue evidence).skipped_count = 0 →
      (run_check catalogue evidence).score_percent = 0) ∧
    ((run_check catalogue evidence).total_requirements -
        (run_check catalogue evidence).skipped_count ≠ 0 →
      (run_check catalogue evidence).score_percent =
        ((run_check catalogue evidence).passed_count : ℚ) /
          (((run_check catalogue evidence).total_requirements -
            (run_check catalogue evidence).skipped_count : Nat) : ℚ) * 100) := by
  refine ⟨?_, ?_, ?_⟩
  · intro rid hrid hnone
    constructor
    · have hmem := List.mem_map_of_mem
        (fun reqId => (reqId, (evidence.lookup reqId).getD EvidenceStatus.skip)) hrid
      simpa [run_check, hnone] using hmem
    · intro st hst
      simp only [run_check] at hst
      obtain ⟨x, hx, hxe⟩ := List.mem_map.mp hst
      rw [Prod.mk.injEq] at hxe
      obtain ⟨h1, h2⟩ := hxe
      subst h1
      rw [hnone] at h2
      simpa using h2.symm
  · intro h
    simp only [run_check] at h ⊢
    rw [if_pos h]
  · intro h
    simp only [run_check] at h ⊢
    rw [if_neg h]

/-- Witness for C7: a requirement absent from the evidence map is reported as
skip, and a catalogue with no evaluable requirement scores 0. -/
theorem run_check_skip_and_score_witness :
    ("A6", EvidenceStatus.skip) ∈
      (run_check ["A6", "A13"] [("A13", EvidenceStatus.pass)]).results ∧
    (run_check ["A6"] ([] : List (String × EvidenceStatus))).score_percent = 0 :=
  ⟨((run_check_skip_and_score ["A6", "A13"] [("A13", EvidenceStatus.pass)]).1
      "A6" (by decide) rfl).1,
   (run_check_skip_and_score ["A6"] []).2.1 (by decide)⟩

-- ===========================================================================
-- C4: cost report invariants
-- ===========================================================================

theorem countP_levels (l : List RequirementCostDetail) :
    l.countP (fun d => d.automation_level == AutomationLevel.fully_automated) +
      l.countP (fun d => d.automation_level == AutomationLevel.semi_automated) +
      l.countP (fun d => d.automation_level == AutomationLevel.manual) = l.length := by
  induction l with
  | nil => simp
  | cons d rest ih =>
    rw [List.countP_cons, List.countP_cons, List.countP_cons]
    cases h : d.automation_level <;> simp [h] <;> omega

/-- C4: for every framework catalogue, automation-override map and
nonnegative hourly rate (hours and rates are nonnegative quantities), the
generated cost report satisfies: the three automation-level counts partition
the requirements; `savings_percentage` is 0 when `total_cost_manual` is 0 and
otherwise `100 * (total_cost_manual - total_cost_with_automation) /
total_cost_manual`; and every requirement detail has
`savings = cost_manual - cost_automated` with `savings ≥ 0` under the
multiplier invariant
`0 ≤ multiplier(fully_automated) ≤ multiplier(semi_automated) ≤
multiplier(manual) = 1`. -/
theorem cost_report_invariants (mult : AutomationLevel → ℚ)
    (catalogue : List FrameworkRequirement)
    (overrides : List (String × AutomationLevel)) (rate : ℚ)
    (R : ComplianceCostReport)
    (hR : R = generateCostReport mult catalogue overrides rate)
    (hm0 : 0 ≤ mult .fully_automated)
    (hm1 : mult .fully_automated ≤ mult .semi_automated)
    (hm2 : mult .semi_automated ≤ mult .manual)
    (hm3 : mult .manual = 1)
    (hrate : 0 ≤ rate)
    (hhours : ∀ req ∈ catalogue, 0 ≤ req.baseline_manual_hours) :
    R.automated_count + R.semi_automated_count + R.manual_count =
      R.total_requirements ∧
    (R.total_cost_manual = 0 → R.savings_percentage = 0) ∧
    (R.total_cost_manual ≠ 0 →
      R.savings_percentage =
        100 * (R.total_cost_manual - R.total_cost_with_automation) /
          R.total_cost_manual) ∧
    (∀ d ∈ R.requirement_details,
      d.savings = d.cost_manual - d.cost_automated ∧ 0 ≤ d.savings) := by
  subst hR
  refine ⟨?_, ?_, ?_, ?_⟩
  · simp only [generateCostReport]
    rw [countP_levels, List.length_map]
  · intro h
    simp only [generateCostReport] at h ⊢
    rw [if_pos h]
  · intro h
    simp only [generateCostReport] at h ⊢
    rw [if_neg h]
  · intro d hd
    simp only [generateCostReport] at hd
    obtain ⟨req, hreq, rfl⟩ := List.mem_map.mp hd
    have hb := hhours req hreq
    have hlvl1 : mult (effectiveLevel overrides req) ≤ 1 := by
      cases effectiveLevel overrides req with
      | fully_automated => exact le_trans hm1 (le_trans hm2 (le_of_eq hm3))
      | semi_automated => exact le_trans hm2 (le_of_eq hm3)
      | manual => exact le_of_eq hm3
    constructor
    · rfl
    · have key : 0 ≤ req.baseline_manual_hours *
          (1 - mult (effectiveLevel overrides req)) * rate :=
        mul_nonneg (mul_nonneg hb (sub_nonneg.mpr hlvl1)) hrate
      show 0 ≤ req.baseline_manual_hours * rate -
        req.baseline_manual_hours * mult (effectiveLevel overrides req) * rate
      nlinarith [key]

/-- Witness for C4 at a concrete multiplier, catalogue and rate. -/
theorem cost_report_invariants_witness :
    (generateCostReport multW catalogueW [] 100).automated_count +
        (generateCostReport multW catalogueW [] 100).semi_automated_count +
        (generateCostReport multW catalogueW [] 100).manual_count =
      (generateCostReport multW catalogueW [] 100).total_requirements ∧
    ((generateCostReport multW catalogueW [] 100).total_cost_manual = 0 →
      (generateCostReport multW catalogueW [] 100).savings_percentage = 0) ∧
    ((generateCostReport multW catalogueW [] 100).total_cost_manual ≠ 0 →
      (generateCostReport multW catalogueW [] 100).savings_percentage =
        100 * ((generateCostReport multW catalogueW [] 100).total_cost_manual -
          (generateCostReport multW catalogueW [] 100).total_cost_with_automation) /
          (generateCostReport multW catalogueW [] 100).total_cost_manual) ∧
    (∀ d ∈ (generateCostReport multW catalogueW [] 100).requirement_details,
      d.savings = d.cost_manual - d.cost_automated ∧ 0 ≤ d.savings) :=
  cost_report_invariants multW catalogueW [] 100
    (generateCostReport multW catalogueW [] 100) rfl
    (by norm_num [multW]) (by norm_num [multW]) (by norm_num [multW]) rfl
    (by norm_num)
    (by
      intro req hreq
      simp only [catalogueW, List.mem_cons, List.mem_singleton] at hreq
      rcases hreq with rfl | rfl | h
      · norm_num
      · norm_num
      · simp at h)

-- ===========================================================================
-- C5: error envelope and status classification of failed client calls
-- ===========================================================================

/-- C5: every failed client call returns ok:false with string error and
detail fields and a status classification: an HTTP error response keeps (in
the fetch client) the server's `{error, detail}` body with defaults
"Unknown error" and "" and carries the HTTP status code, while timeouts,
network failures and other thrown values are reported with status 0; the
sdk-core client classifies identically by status, distinguishing timeout,
network and unexpected faults by message. -/
theorem client_error_envelope (status : Nat) (body : JsonBody)
    (hm raw m : String) :
    fetchJson (.httpResponse false status (.ok body) hm raw) =
      .resolved (.failure
        { error := body.errorField.getD "Unknown error"
          detail := body.detailField.getD "" } status) ∧
    fetchJson (.timeoutAbort m) =
      .resolved (.failure { error := "Network error", detail := m } 0) ∧
    fetchJson (.networkFailure m) =
      .resolved (.failure { error := "Network error", detail := m } 0) ∧
    fetchJson (.otherThrown m) =
      .resolved (.failure { error := "Network error", detail := m } 0) ∧
    callApi (.httpResponse false status (.ok body) hm raw) =
      .resolved (.failure { error := hm, detail := raw } status) ∧
    callApi (.timeoutAbort m) =
      .resolved (.failure { error := "Request timed out", detail := m } 0) ∧
    callApi (.networkFailure m) =
      .resolved (.failure { error := "Network error", detail := m } 0) ∧
    callApi (.otherThrown m) =
      .resolved (.failure { error := "Unexpected error", detail := m } 0) :=
  ⟨rfl, rfl, rfl, rfl, rfl, rfl, rfl, rfl⟩

-- ===========================================================================
-- C9: the client methods always resolve to an ApiResult
-- ===========================================================================

/-- C9: for every outcome of the underlying HTTP call — success, non-OK
status, unparseable JSON body, timeout/abort, network failure or any other
thrown value — both client implementations resolve to an ApiResult and never
reject; each of the four client methods is this wrapper applied to its
request. -/
theorem client_methods_resolve (b : TransportBehaviour) :
    (∃ r, fetchJson b = .resolved r) ∧ (∃ r, callApi b = .resolved r) := by
  constructor
  · cases b with
    | httpResponse ok status body hm raw =>
      cases body with
      | ok jb => cases ok <;> exact ⟨_, rfl⟩
      | error m => exact ⟨_, rfl⟩
    | timeoutAbort m => exact ⟨_, rfl⟩
    | networkFailure m => exact ⟨_, rfl⟩
    | otherThrown m => exact ⟨_, rfl⟩
  · cases b with
    | httpResponse ok status body hm raw =>
      cases body with
      | ok jb => cases ok <;> exact ⟨_, rfl⟩
      | error m => cases ok <;> exact ⟨_, rfl⟩
    | timeoutAbort m => exact ⟨_, rfl⟩
    | networkFailure m => exact ⟨_, rfl⟩
    | otherThrown m => exact ⟨_, rfl⟩

-- ===========================================================================
-- C10: the two client implementations are not observationally equivalent
-- ===========================================================================

/-- C10 fails as stated: on a timeout the fetch-based client reports
`error = "Network error"` while the sdk-core-based client reports
`error = "Request timed out"`, so the two implementations do not return
identical error envelopes. -/
theorem client_impls_not_equivalent :
    fetchJson (.timeoutAbort "aborted") ≠ callApi (.timeoutAbort "aborted") := by
  decide

/-- C10 (amended): for every request and every transport behaviour whose
response body parses as JSON, the two client implementations return
ApiResults agreeing on the ok flag, on the data when ok is true and on the
numeric status when ok is false; the error and detail strings differ in
general. -/
theorem client_impls_envelope_agree (b : TransportBehaviour)
    (h : bodyParses b = true) :
    envelopeAgrees (fetchJson b) (callApi b) = true := by
  cases b with
  | httpResponse ok status body hm raw =>
    cases body with
    | ok jb =>
      cases ok <;>
        simp [fetchJson, fetchAwait, callApi, sdkAwait, callApiHandle,
          envelopeAgrees, Except.map]
    | error m => simp [bodyParses] at h
  | timeoutAbort m =>
    simp [fetchJson, fetchAwait, callApi, sdkAwait, callApiHandle, envelopeAgrees]
  | networkFailure m =>
    simp [fetchJson, fetchAwait, callApi, sdkAwait, callApiHandle, envelopeAgrees]
  | otherThrown m =>
    simp [fetchJson, fetchAwait, callApi, sdkAwait, callApiHandle, envelopeAgrees]

/-- Witness for the amended C10 at a concrete timeout behaviour. -/
theorem client_impls_envelope_agree_witness :
    envelopeAgrees (fetchJson (.timeoutAbort "t")) (callApi (.timeoutAbort "t")) = true :=
  client_impls_envelope_agree (.timeoutAbort "t") rfl

-- ===========================================================================
-- C6: getAuditLog wire parameters
-- ===========================================================================

/-- C6: getAuditLog sends exactly the query parameters whose fields are
defined, under the wire names `agent_id`, `policy_name`, `verdict` and
`limit` (stringified); an undefined field contributes no parameter, and when
every field is undefined the URL carries no query string. -/
theorem audit_log_request_params (q : AuditLogQuery) (base : String) :
    (∀ v, ("agent_id", v) ∈ auditLogParams q ↔ q.agentId = some v) ∧
    (∀ v, ("policy_name", v) ∈ auditLogParams q ↔ q.policyName = some v) ∧
    (∀ v, ("verdict", v) ∈ auditLogParams q ↔ q.verdict = some v) ∧
    (∀ v, ("limit", v) ∈ auditLogParams q ↔ ∃ n, q.limit = some n ∧ v = toString n) ∧
    (q.agentId = none → q.policyName = none → q.verdict = none → q.limit = none →
      auditLogUrl base q = base ++ "/audit/log") := by
  obtain ⟨a, p, vd, l⟩ := q
  cases a <;> cases p <;> cases vd <;> cases l <;>
    refine ⟨?_, ?_, ?_, ?_, ?_⟩ <;>
    simp [auditLogParams, auditLogUrl, encodeParams, eq_comm] <;>
    rfl

/-- Witness for C6: a defined field is sent under its wire name, and the
all-undefined query produces the bare URL. -/
theorem audit_log_request_params_witness :
    (("agent_id", "a1") ∈ auditLogParams ⟨some "a1", none, none, some 5⟩ ↔
      (some "a1" : Option String) = some "a1") ∧
    auditLogUrl "http://h" ⟨none, none, none, none⟩ = "http://h" ++ "/audit/log" :=
  ⟨(audit_log_request_params ⟨some "a1", none, none, some 5⟩ "http://h").1 "a1",
   (audit_log_request_params ⟨none, none, none, none⟩ "http://h").2.2.2.2
     rfl rfl rfl rfl⟩

end AgentGov
